import Mathlib

/-!
Verification of the feature-flag resolution logic of the BASIS umbrella
headers `src/include/test.h` and `src/include/sbia/basis.h`.

Both files consist exclusively of comments and preprocessor directives, so
they are embedded as lists of directives acting on a macro environment
(a partial map from macro names to replacement values).  `#if X` follows the
C preprocessor rule for the expressions that actually occur in these files:
an undefined macro evaluates to 0, a numeric replacement to its value, and
an identifier token remaining after expansion to 0.  The one empty
replacement list in the sources (the include guards, tested only with
`#ifdef`/`#ifndef`) is modelled as an identifier token with empty text.
Headers included from outside the repository (`config.h`, `gtest.h`,
`gmock.h`, `tclap/CmdLine.h`, `path.h`) are not part of the sources; their
effect on the tracked macros is the initial environment, so an `#include`
directive is a no-op on the environment.
-/

/-- A macro replacement value: a numeric literal, or a non-numeric token
sequence (which evaluates to 0 inside `#if`, per the preprocessor rule that
identifiers remaining after macro expansion are replaced by 0). -/
inductive MacroVal where
  | int : Int → MacroVal
  | ident : String → MacroVal
deriving DecidableEq

/-- A macro environment: which macros are defined, and to what value. -/
abbrev MacroEnv := String → Option MacroVal

/-- `#define n v`. -/
def setMacro (env : MacroEnv) (n : String) (v : MacroVal) : MacroEnv :=
  fun m => if m = n then some v else env m

/-- `#undef n`. -/
def unsetMacro (env : MacroEnv) (n : String) : MacroEnv :=
  fun m => if m = n then none else env m

/-- Truth value of a macro's replacement inside `#if`: undefined is 0,
a numeric replacement is its value, a non-numeric token is 0. -/
def ppTruth : Option MacroVal → Bool
  | none => false
  | some (.int n) => n != 0
  | some (.ident _) => false

/-- Truth of `#if n` in environment `env` (the only `#if` expressions in
these headers are single macro names). -/
def ppCond (env : MacroEnv) (n : String) : Bool := ppTruth (env n)

/-- The preprocessor directives occurring in the two headers. -/
inductive Directive where
  | pragmaOnce : Directive
  | preInclude : String → Directive
  | defineMacro : String → MacroVal → Directive
  | undefMacro : String → Directive
  | ifdefBlock : String → List Directive → Directive
  | ifndefBlock : String → List Directive → Directive
  | ifBlock : String → List Directive → List Directive → Directive

mutual
/-- Effect of one directive on the macro environment. -/
def runDirective : Directive → MacroEnv → MacroEnv
  | .pragmaOnce, env => env
  | .preInclude _, env => env
  | .defineMacro n v, env => setMacro env n v
  | .undefMacro n, env => unsetMacro env n
  | .ifdefBlock n body, env =>
      if (env n).isSome then runDirectives body env else env
  | .ifndefBlock n body, env =>
      if (env n).isSome then env else runDirectives body env
  | .ifBlock n thenBr elseBr, env =>
      if ppCond env n then runDirectives thenBr env else runDirectives elseBr env

/-- Effect of a directive list, in order. -/
def runDirectives : List Directive → MacroEnv → MacroEnv
  | [], env => env
  | d :: ds, env => runDirectives ds (runDirective d env)
end

/- Macro and include-path names appearing in the sources. -/

def nTupleIn : String := "HAVE_TR1_TUPLE"

def nPthreadIn : String := "HAVE_PTHREAD"

def nTupleOut : String := "GTEST_USE_OWN_TR1_TUPLE"

def nPthreadOut : String := "GTEST_HAS_PTHREAD"

def nTestGuard : String := "SBIA_BASIS_TEST_H_"

def nBasisGuard : String := "SBIA_BASIS_H_"

def emptyRepl : String := ""

def iSbiaConfig : String := "sbia/basis/config.h"

def iGtest : String := "sbia/basis/gtest/gtest.h"

def iGmock : String := "sbia/basis/gmock/gmock.h"

def iTclap : String := "tclap/CmdLine.h"

def iConfig : String := "basis/config.h"

def iPath : String := "basis/path.h"

/-- Lines 29-46 of `src/include/test.h`: the feature-flag resolver.
`#ifdef GTEST_USE_OWN_TR1_TUPLE` / `#undef`, then
`#if HAVE_TR1_TUPLE` defining `GTEST_USE_OWN_TR1_TUPLE` to 0 else 1;
`#ifdef GTEST_HAS_PTHREAD` / `#undef`, then
`#if HAVE_PTHREAD` defining `GTEST_HAS_PTHREAD` to 1 else 0. -/
def resolverDirectives : List Directive :=
  [ .ifdefBlock nTupleOut [ .undefMacro nTupleOut ],
    .ifBlock nTupleIn
      [ .defineMacro nTupleOut (.int 0) ]
      [ .defineMacro nTupleOut (.int 1) ],
    .ifdefBlock nPthreadOut [ .undefMacro nPthreadOut ],
    .ifBlock nPthreadIn
      [ .defineMacro nPthreadOut (.int 1) ]
      [ .defineMacro nPthreadOut (.int 0) ] ]

/-- The feature-flag resolver as a function on macro environments. -/
def resolve (env : MacroEnv) : MacroEnv :=
  runDirectives resolverDirectives env

/-- All of `src/include/test.h`: `#pragma once`, the `SBIA_BASIS_TEST_H_`
include guard, `#include <sbia/basis/config.h>`, the resolver, then the
gtest and gmock includes. -/
def testH : List Directive :=
  [ .pragmaOnce,
    .ifndefBlock nTestGuard
      ( [ .defineMacro nTestGuard (.ident emptyRepl),
          .preInclude iSbiaConfig ]
        ++ resolverDirectives
        ++ [ .preInclude iGtest,
             .preInclude iGmock ] ) ]

/-- Processing `src/include/test.h` once in a translation unit. -/
def includeTestH (env : MacroEnv) : MacroEnv :=
  runDirectives testH env

/-- All of `src/include/sbia/basis.h`: `#pragma once`, the `SBIA_BASIS_H_`
include guard, and three includes. -/
def basisH : List Directive :=
  [ .pragmaOnce,
    .ifndefBlock nBasisGuard
      [ .defineMacro nBasisGuard (.ident emptyRepl),
        .preInclude iTclap,
        .preInclude iConfig,
        .preInclude iPath ] ]

/-- Names a directive list may `#define` (in any branch). -/
def definedNames : List Directive → List String
  | [] => []
  | .defineMacro n _ :: ds => n :: definedNames ds
  | .ifdefBlock _ b :: ds => definedNames b ++ definedNames ds
  | .ifndefBlock _ b :: ds => definedNames b ++ definedNames ds
  | .ifBlock _ t e :: ds => definedNames t ++ definedNames e ++ definedNames ds
  | _ :: ds => definedNames ds

/-- Names a directive list may `#undef` (in any branch). -/
def undefNames : List Directive → List String
  | [] => []
  | .undefMacro n :: ds => n :: undefNames ds
  | .ifdefBlock _ b :: ds => undefNames b ++ undefNames ds
  | .ifndefBlock _ b :: ds => undefNames b ++ undefNames ds
  | .ifBlock _ t e :: ds => undefNames t ++ undefNames e ++ undefNames ds
  | _ :: ds => undefNames ds

/-- Paths a directive list may `#include` (in any branch). -/
def includePaths : List Directive → List String
  | [] => []
  | .preInclude p :: ds => p :: includePaths ds
  | .ifdefBlock _ b :: ds => includePaths b ++ includePaths ds
  | .ifndefBlock _ b :: ds => includePaths b ++ includePaths ds
  | .ifBlock _ t e :: ds => includePaths t ++ includePaths e ++ includePaths ds
  | _ :: ds => includePaths ds

/-- Test-harness environment defining only the two input flags (or leaving
them undefined), with every other macro undefined. -/
def mkEnv (t p : Option MacroVal) : MacroEnv :=
  fun n => if n = nTupleIn then t else if n = nPthreadIn then p else none

/-- Encoding of a boolean build flag as a numeric macro value. -/
def boolFlag (b : Bool) : MacroVal := .int (if b then 1 else 0)

/-- A sample non-numeric replacement token. -/
def tokFoo : String := "foo"

theorem setMacro_apply (env : MacroEnv) (n : String) (v : MacroVal) (m : String) :
    setMacro env n v m = if m = n then some v else env m := rfl

theorem unsetMacro_apply (env : MacroEnv) (n : String) (m : String) :
    unsetMacro env n m = if m = n then none else env m := rfl

/-- Pointwise characterisation of the resolver: it writes the two GTEST
output macros from the truth of the two HAVE input macros and leaves every
other macro unchanged. -/
theorem resolve_apply (env : MacroEnv) (m : String) :
    resolve env m =
      if m = nPthreadOut then some (.int (if ppCond env nPthreadIn then 1 else 0))
      else if m = nTupleOut then some (.int (if ppCond env nTupleIn then 0 else 1))
      else env m := by
  simp only [resolve, resolverDirectives, runDirectives, runDirective]
  split_ifs <;>
    simp_all [setMacro, unsetMacro, ppCond, ppTruth,
      nTupleIn, nPthreadIn, nTupleOut, nPthreadOut]

theorem resolve_tupleOut (env : MacroEnv) :
    resolve env nTupleOut = some (.int (if ppCond env nTupleIn then 0 else 1)) := by
  rw [resolve_apply]
  simp [nTupleOut, nPthreadOut]

theorem resolve_pthreadOut (env : MacroEnv) :
    resolve env nPthreadOut = some (.int (if ppCond env nPthreadIn then 1 else 0)) := by
  rw [resolve_apply]
  simp [nPthreadOut]

theorem resolve_other (env : MacroEnv) (m : String)
    (h1 : m ≠ nTupleOut) (h2 : m ≠ nPthreadOut) :
    resolve env m = env m := by
  rw [resolve_apply, if_neg h2, if_neg h1]

/-- Processing `test.h` either hits the include guard and does nothing, or
defines the guard and runs the resolver (the `#include` directives do not
touch the tracked macros). -/
theorem includeTestH_eq (env : MacroEnv) :
    includeTestH env =
      if (env nTestGuard).isSome then env
      else resolve (setMacro env nTestGuard (.ident emptyRepl)) := by
  by_cases hg : (env nTestGuard).isSome <;>
    simp [includeTestH, testH, resolve, resolverDirectives,
      runDirectives, runDirective, hg]

/-- C1: for every combination of the two boolean inputs `HAVE_TR1_TUPLE`
and `HAVE_PTHREAD`, the resolver produces `GTEST_USE_OWN_TR1_TUPLE` equal
to the negation of `HAVE_TR1_TUPLE` and `GTEST_HAS_PTHREAD` equal to
`HAVE_PTHREAD`, matching the four-row truth table. -/
theorem resolver_truth_table (b1 b2 : Bool) :
    resolve (mkEnv (some (boolFlag b1)) (some (boolFlag b2))) nTupleOut
        = some (boolFlag (!b1))
    ∧ resolve (mkEnv (some (boolFlag b1)) (some (boolFlag b2))) nPthreadOut
        = some (boolFlag b2) := by
  cases b1 <;> cases b2 <;> exact ⟨rfl, rfl⟩

/-- C2: for every input state (each input defined to any value or
undefined), after resolution each output flag is defined and holds exactly
the literal 0 or the literal 1, and no other value is possible. -/
theorem outputs_zero_or_one (env : MacroEnv) :
    (resolve env nTupleOut = some (.int 0) ∨ resolve env nTupleOut = some (.int 1))
    ∧ (resolve env nPthreadOut = some (.int 0)
        ∨ resolve env nPthreadOut = some (.int 1)) := by
  rw [resolve_tupleOut, resolve_pthreadOut]
  cases ppCond env nTupleIn <;> cases ppCond env nPthreadIn <;> simp

/-- C3: an undefined input flag behaves exactly like one set to false
(value 0): an undefined `HAVE_TR1_TUPLE` yields `GTEST_USE_OWN_TR1_TUPLE`
of 1, an undefined `HAVE_PTHREAD` yields `GTEST_HAS_PTHREAD` of 0, and in
each case both outputs coincide with those of the run where the flag is
explicitly defined to 0. -/
theorem absence_as_false (env : MacroEnv) :
    (env nTupleIn = none →
      resolve env nTupleOut = some (.int 1)
      ∧ resolve env nTupleOut
          = resolve (setMacro env nTupleIn (.int 0)) nTupleOut
      ∧ resolve env nPthreadOut
          = resolve (setMacro env nTupleIn (.int 0)) nPthreadOut)
    ∧ (env nPthreadIn = none →
      resolve env nPthreadOut = some (.int 0)
      ∧ resolve env nPthreadOut
          = resolve (setMacro env nPthreadIn (.int 0)) nPthreadOut
      ∧ resolve env nTupleOut
          = resolve (setMacro env nPthreadIn (.int 0)) nTupleOut) := by
  constructor <;> intro h <;>
    simp only [nTupleIn, nPthreadIn] at h <;>
    simp [resolve_tupleOut, resolve_pthreadOut, ppCond, ppTruth, setMacro, h,
      nTupleIn, nPthreadIn]

theorem absence_as_false_witness :
    resolve (mkEnv none none) nTupleOut = some (.int 1)
    ∧ resolve (mkEnv none none) nPthreadOut = some (.int 0) :=
  ⟨((absence_as_false (mkEnv none none)).1 rfl).1,
   ((absence_as_false (mkEnv none none)).2 rfl).1⟩

/-- C4: whatever values the output flags held before resolution (including
any pre-definition to arbitrary values `v` and `w`), after resolution each
output flag holds exactly the value dictated by the truth table from the
inputs, never the pre-existing value; structurally, the resolver contains
an `#undef` for each output flag before redefining it. -/
theorem override_policy (env : MacroEnv) (v w : MacroVal) :
    resolve (setMacro (setMacro env nTupleOut v) nPthreadOut w) nTupleOut
        = some (.int (if ppCond env nTupleIn then 0 else 1))
    ∧ resolve (setMacro (setMacro env nTupleOut v) nPthreadOut w) nPthreadOut
        = some (.int (if ppCond env nPthreadIn then 1 else 0))
    ∧ undefNames resolverDirectives = [nTupleOut, nPthreadOut] := by
  refine ⟨?_, ?_, by simp [undefNames, resolverDirectives]⟩
  · rw [resolve_tupleOut]
    have hc : ppCond (setMacro (setMacro env nTupleOut v) nPthreadOut w) nTupleIn
        = ppCond env nTupleIn := by
      simp [ppCond, setMacro, nTupleIn, nTupleOut, nPthreadOut]
    rw [hc]
  · rw [resolve_pthreadOut]
    have hc : ppCond (setMacro (setMacro env nTupleOut v) nPthreadOut w) nPthreadIn
        = ppCond env nPthreadIn := by
      simp [ppCond, setMacro, nPthreadIn, nTupleOut, nPthreadOut]
    rw [hc]

/-- C5: resolving twice yields the same final values as resolving once,
`resolve (resolve s) = resolve s` for every state `s`; likewise processing
the whole header `test.h` twice equals processing it once. -/
theorem resolve_idempotent (env : MacroEnv) :
    resolve (resolve env) = resolve env
    ∧ includeTestH (includeTestH env) = includeTestH env := by
  have htuple : resolve env nTupleIn = env nTupleIn :=
    resolve_other env nTupleIn (by decide) (by decide)
  have hpthread : resolve env nPthreadIn = env nPthreadIn :=
    resolve_other env nPthreadIn (by decide) (by decide)
  constructor
  · funext m
    rw [resolve_apply (resolve env) m, resolve_apply env m]
    by_cases hp : m = nPthreadOut
    · simp [hp, ppCond, hpthread]
    · by_cases ht : m = nTupleOut
      · simp [ht, hp, ppCond, htuple, hpthread, nTupleOut, nPthreadOut]
      · simp [ht, hp, resolve_other env m ht hp]
  · by_cases hg : (env nTestGuard).isSome
    · rw [includeTestH_eq env, if_pos hg, includeTestH_eq env, if_pos hg]
    · rw [includeTestH_eq env, if_neg hg, includeTestH_eq, if_pos]
      rw [resolve_other _ nTestGuard (by decide) (by decide)]
      simp [setMacro]

/-- C6: the resolver is a total function with no failure branch: for every
input environment, including both inputs undefined, it produces a defined
value for both output flags. -/
theorem resolver_total (env : MacroEnv) :
    (resolve env nTupleOut).isSome = true
    ∧ (resolve env nPthreadOut).isSome = true := by
  rw [resolve_tupleOut, resolve_pthreadOut]
  exact ⟨rfl, rfl⟩

/-- C7: the resolver is deterministic and depends only on the two input
flags: any two environments that agree on `HAVE_TR1_TUPLE` and
`HAVE_PTHREAD` produce equal values of both output flags, regardless of
any other macro. -/
theorem resolver_deterministic (e1 e2 : MacroEnv)
    (ht : e1 nTupleIn = e2 nTupleIn) (hp : e1 nPthreadIn = e2 nPthreadIn) :
    resolve e1 nTupleOut = resolve e2 nTupleOut
    ∧ resolve e1 nPthreadOut = resolve e2 nPthreadOut := by
  rw [resolve_tupleOut, resolve_tupleOut, resolve_pthreadOut, resolve_pthreadOut]
  rw [ppCond, ppCond, ppCond, ppCond, ht, hp]
  exact ⟨rfl, rfl⟩

theorem resolver_deterministic_witness :
    resolve (mkEnv none none) nTupleOut
        = resolve (setMacro (mkEnv none none) nBasisGuard (.int 5)) nTupleOut
    ∧ resolve (mkEnv none none) nPthreadOut
        = resolve (setMacro (mkEnv none none) nBasisGuard (.int 5)) nPthreadOut :=
  resolver_deterministic _ _ (by decide) (by decide)

/-- C8: both umbrella headers are pure aggregation surfaces: apart from the
include guards and the two resolved feature flags, they define or undefine
no macro, and they contain exactly the listed includes (all other content
of both files being comments; the directive lists embed the files in
full). -/
theorem umbrella_aggregation_only :
    definedNames basisH = [nBasisGuard]
    ∧ undefNames basisH = []
    ∧ includePaths basisH = [iTclap, iConfig, iPath]
    ∧ definedNames testH
        = [nTestGuard, nTupleOut, nTupleOut, nPthreadOut, nPthreadOut]
    ∧ undefNames testH = [nTupleOut, nPthreadOut]
    ∧ includePaths testH = [iSbiaConfig, iGtest, iGmock] := by
  refine ⟨?_, ?_, ?_, ?_, ?_, ?_⟩ <;>
    simp [definedNames, undefNames, includePaths, basisH, testH,
      resolverDirectives]

/-- C9: the include guard `SBIA_BASIS_TEST_H_` is defined after any
processing of `test.h`, and a second inclusion (processing with the guard
already defined) is a no-op, so the resolver body executes at most once
per translation unit. -/
theorem include_guard_noop (env : MacroEnv) :
    ((includeTestH env) nTestGuard).isSome = true
    ∧ ((env nTestGuard).isSome = true → includeTestH env = env) := by
  constructor
  · by_cases hg : (env nTestGuard).isSome
    · rw [includeTestH_eq env, if_pos hg]
      exact hg
    · rw [includeTestH_eq env, if_neg hg]
      rw [resolve_other _ nTestGuard (by decide) (by decide)]
      simp [setMacro]
  · intro hg
    rw [includeTestH_eq env, if_pos hg]

theorem include_guard_noop_witness :
    includeTestH (setMacro (mkEnv none none) nTestGuard (.ident emptyRepl))
      = setMacro (mkEnv none none) nTestGuard (.ident emptyRepl) :=
  (include_guard_noop _).2 (by simp [setMacro])

/-- C10: the inputs are not restricted to 0 and 1: any nonzero integer
value of `HAVE_TR1_TUPLE` yields `GTEST_USE_OWN_TR1_TUPLE` of 0 and any
nonzero integer value of `HAVE_PTHREAD` yields `GTEST_HAS_PTHREAD` of 1,
while the value 0, an undefined macro, and a non-numeric token value all
behave as false. -/
theorem nonzero_and_token_inputs (env : MacroEnv) :
    (∀ k : Int, k ≠ 0 → env nTupleIn = some (.int k) →
        resolve env nTupleOut = some (.int 0))
    ∧ (∀ k : Int, k ≠ 0 → env nPthreadIn = some (.int k) →
        resolve env nPthreadOut = some (.int 1))
    ∧ ((env nTupleIn = some (.int 0) ∨ env nTupleIn = none
          ∨ ∃ s, env nTupleIn = some (.ident s)) →
        resolve env nTupleOut = some (.int 1))
    ∧ ((env nPthreadIn = some (.int 0) ∨ env nPthreadIn = none
          ∨ ∃ s, env nPthreadIn = some (.ident s)) →
        resolve env nPthreadOut = some (.int 0)) := by
  refine ⟨?_, ?_, ?_, ?_⟩
  · intro k hk h
    rw [resolve_tupleOut]
    simp only [ppCond, h]
    simp [ppTruth, hk]
  · intro k hk h
    rw [resolve_pthreadOut]
    simp only [ppCond, h]
    simp [ppTruth, hk]
  · rintro (h | h | ⟨s, h⟩) <;>
      { rw [resolve_tupleOut]
        simp only [ppCond, h]
        simp [ppTruth] }
  · rintro (h | h | ⟨s, h⟩) <;>
      { rw [resolve_pthreadOut]
        simp only [ppCond, h]
        simp [ppTruth] }

theorem nonzero_and_token_inputs_witness :
    resolve (mkEnv (some (.int 7)) (some (.int (-3)))) nTupleOut = some (.int 0)
    ∧ resolve (mkEnv (some (.int 7)) (some (.int (-3)))) nPthreadOut = some (.int 1)
    ∧ resolve (mkEnv (some (.ident tokFoo)) none) nTupleOut = some (.int 1)
    ∧ resolve (mkEnv (some (.ident tokFoo)) none) nPthreadOut = some (.int 0) :=
  ⟨(nonzero_and_token_inputs _).1 7 (by decide) (by decide),
   (nonzero_and_token_inputs _).2.1 (-3) (by decide) (by decide),
   (nonzero_and_token_inputs _).2.2.1 (Or.inr (Or.inr ⟨tokFoo, by decide⟩)),
   (nonzero_and_token_inputs _).2.2.2 (Or.inr (Or.inl (by decide)))⟩
